import Mathlib

/-!
Verification of the notification dispatch engine
(`src/lib/notificationWorker.js` of five-bells-ledger).

The JavaScript source is shallowly embedded: generator functions become
pure Lean functions threading an explicit `WorkerState`; external
collaborators (URI builder, signer, transport, scheduler flag, DB
lookups) are fields of an `Env` record; externally visible actions
(local event emission, signing-primitive invocations, outbound sends,
retry handoffs, record deletion, the durable scheduling pass, failure
logging) are recorded in an effect trace.
-/

namespace NotificationWorker

/-- Transfer lifecycle states (five-bells transfer state dictionary). -/
inductive TransferState where
  | proposed
  | prepared
  | executed
  | rejected
  deriving DecidableEq, Repr

/-- One entry of a transfer's `debits`/`credits` array: carries an
`account` reference (only the plucked field is modelled). -/
structure Funds where
  account : String
  deriving DecidableEq, Repr

/-- A transfer as consumed by the worker: `id`, `state`, `debits`,
`credits`. -/
structure Transfer where
  id : String
  state : TransferState
  debits : List Funds
  credits : List Funds
  deriving DecidableEq, Repr

/-- A subscription: `id`, `owner`, `target` delivery endpoint. -/
structure Subscription where
  id : String
  owner : String
  target : String
  deriving DecidableEq, Repr

/-- Fulfillment evidence; its content is opaque to the worker. -/
structure Fulfillment where
  body : String
  deriving DecidableEq, Repr

/-- A stored notification record (`id`, `subscription_id`,
`transfer_id`). -/
structure Notification where
  id : String
  subscription_id : String
  transfer_id : String
  deriving DecidableEq, Repr

/-- External transfer representation from
`convertToExternalTransfer`; the converter is external, so it is
modelled as an injective wrapper. -/
structure ExternalTransfer where
  ofTransfer : Transfer
  deriving DecidableEq, Repr

/-- External fulfillment representation from
`convertToExternalFulfillment`. -/
structure ExternalFulfillment where
  ofFulfillment : Fulfillment
  deriving DecidableEq, Repr

def convertToExternalTransfer (t : Transfer) : ExternalTransfer :=
  ⟨t⟩

def convertToExternalFulfillment (f : Fulfillment) : ExternalFulfillment :=
  ⟨f⟩

/-- A signature produced by `JSONSigning.sign`.  In the source the
signature is a JSON object (hence always truthy), so it is modelled as
a structure. -/
structure Signature where
  value : String
  deriving DecidableEq, Repr

/-- The `related_resources` field of a notification body: exactly one
of `execution_condition_fulfillment` or
`cancellation_condition_fulfillment`. -/
inductive RelatedResources where
  | execution_condition_fulfillment (f : ExternalFulfillment)
  | cancellation_condition_fulfillment (f : ExternalFulfillment)
  deriving DecidableEq, Repr

/-- A notification body as built by the worker.  The generic body for
local events has only `resource` (and possibly `related_resources`);
the per-subscriber delivery body also carries `id`, `subscription`,
`event` and, after signing, `signature`. -/
structure NotificationBody where
  bodyId : Option String := none
  subscription : Option String := none
  event : Option String := none
  resource : ExternalTransfer
  related_resources : Option RelatedResources := none
  signature : Option Signature := none
  deriving DecidableEq, Repr

/-- Outcome of the external `utils.sendNotification` transport call:
either a response with a status code, or a raised failure. -/
inductive TransportOutcome where
  | response (statusCode : Nat)
  | exception (err : String)
  deriving DecidableEq, Repr

/-- Externally visible actions recorded by the embedding. -/
inductive Effect where
  | emit (event : String) (body : NotificationBody)
  | signCall (notificationId : String)
  | send (target : String) (body : NotificationBody)
  | logDebug (msg : String)
  | retryNotification (notificationId : String)
  | deleteNotification (notificationId : String)
  | scheduleProcessing
  deriving DecidableEq, Repr

/-- Mutable state owned by the worker: the notification store contents
and the in-memory signature cache (`notification id -> signature`). -/
structure WorkerState where
  store : List Notification
  signatureCache : List (String × Signature)
  deriving DecidableEq, Repr

/-- External collaborators of the worker, fixed for a run. -/
structure Env where
  uriMakeAccount : String → String
  uriMakeSubscription : String → String
  sign : NotificationBody → String → String → Signature
  privateKey : String
  transport : String → NotificationBody → TransportOutcome
  schedulerEnabled : Bool
  getFulfillment : String → Option Fulfillment
  getAffectedSubscriptions : List String → Option (List Subscription)
  genId : Nat → String

/-! ## Store and cache primitives (external DAO interface) -/

/-- Modelled from the spec: `getMatchingNotification` of the
notification DAO (`models/db/notifications`, not under `src/`) looks
up an existing notification matching `(subscriptionID, transferID)`. -/
def getMatchingNotification (store : List Notification)
    (subscriptionID transferID : String) : Option Notification :=
  store.find? fun n =>
    n.subscription_id == subscriptionID && n.transfer_id == transferID

/-- Modelled from the spec: `insertNotification` of the DAO persists a
new record. -/
def insertNotification (store : List Notification) (values : Notification) :
    List Notification :=
  store ++ [values]

/-- Modelled from the spec: `getNotification` of the DAO reads a
record by `id`. -/
def getNotification (store : List Notification) (id : String) :
    Option Notification :=
  store.find? fun n => n.id == id

/-- Modelled from the spec: `deleteNotification` of the DAO removes
the record with the given `id`. -/
def deleteNotificationById (store : List Notification) (id : String) :
    List Notification :=
  store.filter fun n => n.id != id

def lookupCache (cache : List (String × Signature)) (id : String) :
    Option Signature :=
  (cache.find? fun p => p.1 == id).map Prod.snd

def insertCache (cache : List (String × Signature)) (id : String)
    (sig : Signature) : List (String × Signature) :=
  (id, sig) :: cache.filter fun p => p.1 != id

def deleteCache (cache : List (String × Signature)) (id : String) :
    List (String × Signature) :=
  cache.filter fun p => p.1 != id

/-! ## findOrCreate -/

/-- Options passed to `findOrCreate`: optional `defaults`, which may
carry an explicit `id`.  (`values.id` is the defaults' `id` when
present, otherwise a generated uuid.) -/
structure FindOrCreateOptions where
  defaultsId : Option String := none
  deriving DecidableEq, Repr

/-- The function `findOrCreate(subscriptionID, transferID, options)`: return the
existing record matching the pair, or synthesize (merging defaults
with the pair's identifiers, generating an id when none supplied),
persist, and re-read by id.  `freshId` stands for the `uuid4()` call. -/
def findOrCreate (store : List Notification)
    (subscriptionID transferID : String) (options : FindOrCreateOptions)
    (freshId : String) : List Notification × Option Notification :=
  match getMatchingNotification store subscriptionID transferID with
  | some result => (store, some result)
  | none =>
    let id := match options.defaultsId with
      | some i => i
      | none => freshId
    let values : Notification :=
      { id := id, subscription_id := subscriptionID, transfer_id := transferID }
    let store1 := insertNotification store values
    (store1, getNotification store1 id)

/-! ## Payload construction -/

/-- The shared fulfillment-attachment conditional (duplicated verbatim
in `queueNotifications` and `processNotificationWithInstances`): if a
fulfillment is present and the state is EXECUTED attach
`execution_condition_fulfillment`; if REJECTED attach
`cancellation_condition_fulfillment`; otherwise leave the body
unchanged. -/
def attachFulfillment (body : NotificationBody) (state : TransferState)
    (fulfillment : Option Fulfillment) : NotificationBody :=
  match fulfillment with
  | none => body
  | some f =>
    let ext := convertToExternalFulfillment f
    if state = TransferState.executed then
      let rr := RelatedResources.execution_condition_fulfillment ext
      { body with related_resources := some rr }
    else if state = TransferState.rejected then
      let rr := RelatedResources.cancellation_condition_fulfillment ext
      { body with related_resources := some rr }
    else body

/-- Modelled from the spec: `isTransferFinalized`
(`lib/transferUtils`, not under `src/`) — a transfer is finalized when
its state is terminal (executed or rejected). -/
def isTransferFinalized (t : Transfer) : Bool :=
  t.state = TransferState.executed || t.state = TransferState.rejected

/-- The affected-account list: debits flattened with credits, the
`account` field plucked from each, then the wildcard appended. -/
def affectedAccounts (t : Transfer) : List String :=
  ((t.debits ++ t.credits).map Funds.account) ++ ["*"]

/-- The generic notification body built by `queueNotifications` for
local events: `resource` plus, when the transfer is finalized and a
fulfillment exists, the attached fulfillment evidence. -/
def genericNotificationBody (env : Env) (t : Transfer) : NotificationBody :=
  let base : NotificationBody := { resource := convertToExternalTransfer t }
  if isTransferFinalized t then
    attachFulfillment base t.state (env.getFulfillment t.id)
  else base

/-- The fulfillment value `queueNotifications` holds after its
conditional fetch: looked up only when the transfer is finalized. -/
def fetchedFulfillment (env : Env) (t : Transfer) : Option Fulfillment :=
  if isTransferFinalized t then env.getFulfillment t.id else none

/-- The per-subscriber delivery body built by
`processNotificationWithInstances` before signing. -/
def buildDeliveryBody (env : Env) (notification : Notification)
    (transfer : Transfer) (subscription : Subscription)
    (fulfillment : Option Fulfillment) : NotificationBody :=
  let subscriptionURI := env.uriMakeSubscription subscription.id
  let base : NotificationBody :=
    { bodyId := some (subscriptionURI ++ "/notifications/" ++ notification.id)
      subscription := some subscriptionURI
      event := some "transfer.update"
      resource := convertToExternalTransfer transfer }
  attachFulfillment base transfer.state fulfillment

/-! ## Delivery attempt -/

/-- The delivery-failure criterion of the source: the attempt sets
`retry = true`, clears it only when the transport responds with a
status code < 400, and keeps it on a raised transport failure (the
`catch` branch). -/
def isFailureOutcome : TransportOutcome → Bool
  | TransportOutcome.response code => !decide (code < 400)
  | TransportOutcome.exception _ => true

/-- The diagnostic logging the delivery attempt performs on a failed
outcome (remote status ≥ 400 is logged with the response body; a
raised transport failure is logged in the `catch` branch). -/
def failureLog : TransportOutcome → List Effect
  | TransportOutcome.response code =>
    if code < 400 then [] else [Effect.logDebug "remote error for notification"]
  | TransportOutcome.exception _ => [Effect.logDebug "notification send failed"]

/-- The delivery attempt `processNotificationWithInstances`: build the delivery body, reuse
or create the cached signature, send, and either clean up (status
< 400) or hand the notification to the scheduler's retry interface.
Transport failures are caught (`retry` stays true); the routine never
re-raises them. -/
def processNotificationWithInstances (env : Env) (st : WorkerState)
    (notification : Notification) (transfer : Transfer)
    (subscription : Subscription) (fulfillment : Option Fulfillment) :
    WorkerState × List Effect :=
  let body := buildDeliveryBody env notification transfer subscription fulfillment
  let algorithm := "CC"
  let signStep :=
    match lookupCache st.signatureCache notification.id with
    | some sig =>
      ({ body with signature := some sig }, st, ([] : List Effect))
    | none =>
      let sig := env.sign body algorithm env.privateKey
      let cache1 := insertCache st.signatureCache notification.id sig
      ({ body with signature := some sig },
       { st with signatureCache := cache1 },
       [Effect.signCall notification.id])
  let signedNotification := signStep.1
  let st1 := signStep.2.1
  let signEffects := signStep.2.2
  let outcome := env.transport subscription.target signedNotification
  let sendEffects := [Effect.send subscription.target signedNotification]
  let failLog := failureLog outcome
  let retry := isFailureOutcome outcome
  if retry then
    (st1, signEffects ++ sendEffects ++ failLog ++
      [Effect.retryNotification notification.id])
  else
    let cache2 := deleteCache st1.signatureCache notification.id
    let store2 := deleteNotificationById st1.store notification.id
    ({ st1 with signatureCache := cache2, store := store2 },
     signEffects ++ sendEffects ++ failLog ++
       [Effect.deleteNotification notification.id])

/-! ## Fan-out dispatch -/

/-- The transactional creation pass of `queueNotifications`:
`findOrCreate` for each matched subscription, in order, threading the
store; the generated uuid of call `i` is `env.genId i`. -/
def createAll (env : Env) (store : List Notification)
    (subscriptions : List Subscription) (transferID : String) (i : Nat) :
    List Notification × List (Option Notification) :=
  match subscriptions with
  | [] => (store, [])
  | s :: rest =>
    let r := findOrCreate store s.id transferID {} (env.genId i)
    let r2 := createAll env r.1 rest transferID (i + 1)
    (r2.1, r.2 :: r2.2)

/-- The immediate-send pass: `processNotificationWithInstances` for
each (notification, subscription) pair. -/
def processAll (env : Env) (st : WorkerState)
    (pairs : List (Option Notification × Subscription))
    (transfer : Transfer) (fulfillment : Option Fulfillment) :
    WorkerState × List Effect :=
  match pairs with
  | [] => (st, [])
  | (none, _) :: rest => processAll env st rest transfer fulfillment
  | (some n, s) :: rest =>
    let r := processNotificationWithInstances env st n transfer s fulfillment
    let r2 := processAll env r.1 rest transfer fulfillment
    (r2.1, r.2 ++ r2.2)

/-- The local-event emissions: one `transfer-<account>` event per
affected account (wildcard included), each carrying the generic body. -/
def emitEffects (accounts : List String) (body : NotificationBody) :
    List Effect :=
  accounts.map fun a => Effect.emit ("transfer-" ++ a) body

/-- The account-to-URI conversion applied before the subscription
lookup (the wildcard passes through unchanged). -/
def affectedAccountUris (env : Env) (t : Transfer) : List String :=
  (affectedAccounts t).map fun account =>
    if account == "*" then account else env.uriMakeAccount account

/-- The fan-out `queueNotifications(transfer)`: resolve affected accounts, build
the generic body, fetch the fulfillment when finalized, resolve
affected subscriptions (return early when none), create/deduplicate
notification records, then (detached) emit local events, and — only
when the scheduler is enabled — attempt immediate delivery for every
pair and schedule the durable processing pass.  Errors of the detached
block are absorbed by its catch handler and never reach the caller. -/
def queueNotifications (env : Env) (st : WorkerState) (transfer : Transfer) :
    WorkerState × List Effect :=
  let affected := affectedAccounts transfer
  let notificationBody := genericNotificationBody env transfer
  let fulfillment := fetchedFulfillment env transfer
  match env.getAffectedSubscriptions (affectedAccountUris env transfer) with
  | none => (st, [])
  | some subscriptions =>
    let created := createAll env st.store subscriptions transfer.id 0
    let st1 : WorkerState := { st with store := created.1 }
    let emits := emitEffects affected notificationBody
    if env.schedulerEnabled then
      let sent := processAll env st1 (created.2.zip subscriptions)
        transfer fulfillment
      (sent.1, emits ++ sent.2 ++ [Effect.scheduleProcessing])
    else
      (st1, emits)

/-! ## Trace helpers -/

def isEmit : Effect → Bool
  | Effect.emit _ _ => true
  | _ => false

def isSend : Effect → Bool
  | Effect.send _ _ => true
  | _ => false

def isSignCall : Effect → Bool
  | Effect.signCall _ => true
  | _ => false

def isRetry : Effect → Bool
  | Effect.retryNotification _ => true
  | _ => false

def isDelete : Effect → Bool
  | Effect.deleteNotification _ => true
  | _ => false

/-- The signatures carried by the `send` effects of a trace, in
order. -/
def sentSignatures (trace : List Effect) : List (Option Signature) :=
  (trace.filter isSend).filterMap fun e =>
    match e with
    | Effect.send _ body => some body.signature
    | _ => none

/-- Records of the store matching a (subscription, transfer) pair. -/
def pairRecords (store : List Notification)
    (subscriptionID transferID : String) : List Notification :=
  store.filter fun n =>
    n.subscription_id == subscriptionID && n.transfer_id == transferID

/-- The signed payload a delivery attempt sends, as a function of the
state it starts from: the cached signature when one exists, a freshly
produced one otherwise. -/
def signedDeliveryBody (env : Env) (st : WorkerState) (n : Notification)
    (t : Transfer) (s : Subscription) (f : Option Fulfillment) :
    NotificationBody :=
  let body := buildDeliveryBody env n t s f
  match lookupCache st.signatureCache n.id with
  | some sig => { body with signature := some sig }
  | none => { body with signature := some (env.sign body "CC" env.privateKey) }

/-- A concrete environment used to instantiate theorems on explicit
inputs. -/
def testEnv : Env :=
  { uriMakeAccount := fun a => "http://ledger/accounts/" ++ a
    uriMakeSubscription := fun s => "http://ledger/subscriptions/" ++ s
    sign := fun _ _ _ => { value := "sigv" }
    privateKey := "pk"
    transport := fun _ _ => TransportOutcome.response 200
    schedulerEnabled := true
    getFulfillment := fun _ => none
    getAffectedSubscriptions := fun _ =>
      some [{ id := "sub1", owner := "owner1", target := "http://host/cb" }]
    genId := fun i => "uuid" ++ toString i }

/-! ## Basic lemmas about the cache and trace -/

theorem lookupCache_insertCache (c : List (String × Signature))
    (id : String) (sig : Signature) :
    lookupCache (insertCache c id sig) id = some sig := by
  simp [lookupCache, insertCache, List.find?]

theorem find?_filter_self_ne (c : List (String × Signature)) (id : String) :
    List.find? (fun p => p.1 == id) (c.filter fun p => p.1 != id) = none := by
  rw [List.find?_eq_none]
  intro p hp
  have hmem := List.of_mem_filter hp
  simp only [bne_iff_ne, ne_eq] at hmem
  simpa using hmem

theorem lookupCache_deleteCache (c : List (String × Signature)) (id : String) :
    lookupCache (deleteCache c id) id = none := by
  simp [lookupCache, deleteCache, find?_filter_self_ne]

theorem failureLog_shape (o : TransportOutcome) (e : Effect)
    (he : e ∈ failureLog o) : ∃ m, e = Effect.logDebug m := by
  cases o with
  | response code =>
    unfold failureLog at he
    by_cases h : code < 400
    · simp [h] at he
    · simp [h] at he
      exact ⟨_, he⟩
  | exception err =>
    unfold failureLog at he
    simp at he
    exact ⟨_, he⟩

theorem failureLog_filter_isRetry (o : TransportOutcome) :
    (failureLog o).filter isRetry = [] := by
  rw [List.filter_eq_nil_iff]
  intro e he
  obtain ⟨m, rfl⟩ := failureLog_shape o e he
  simp [isRetry]

theorem failureLog_filter_isSend (o : TransportOutcome) :
    (failureLog o).filter isSend = [] := by
  rw [List.filter_eq_nil_iff]
  intro e he
  obtain ⟨m, rfl⟩ := failureLog_shape o e he
  simp [isSend]

theorem failureLog_filter_isSignCall (o : TransportOutcome) :
    (failureLog o).filter isSignCall = [] := by
  rw [List.filter_eq_nil_iff]
  intro e he
  obtain ⟨m, rfl⟩ := failureLog_shape o e he
  simp [isSignCall]

theorem failureLog_filter_isDelete (o : TransportOutcome) :
    (failureLog o).filter isDelete = [] := by
  rw [List.filter_eq_nil_iff]
  intro e he
  obtain ⟨m, rfl⟩ := failureLog_shape o e he
  simp [isDelete]

theorem failureLog_no_delete (o : TransportOutcome) :
    ∀ e ∈ failureLog o, isDelete e = false := by
  intro e he
  obtain ⟨m, rfl⟩ := failureLog_shape o e he
  simp [isDelete]

theorem failureLog_no_retry (o : TransportOutcome) :
    ∀ e ∈ failureLog o, isRetry e = false := by
  intro e he
  obtain ⟨m, rfl⟩ := failureLog_shape o e he
  simp [isRetry]

theorem failureLog_no_emit (o : TransportOutcome) :
    ∀ e ∈ failureLog o, isEmit e = false := by
  intro e he
  obtain ⟨m, rfl⟩ := failureLog_shape o e he
  simp [isEmit]

theorem failureLog_filter_isEmit (o : TransportOutcome) :
    (failureLog o).filter isEmit = [] := by
  rw [List.filter_eq_nil_iff]
  intro e he
  obtain ⟨m, rfl⟩ := failureLog_shape o e he
  simp [isEmit]

theorem process_filter_isEmit (env : Env) (st : WorkerState)
    (n : Notification) (t : Transfer) (s : Subscription)
    (f : Option Fulfillment) :
    ((processNotificationWithInstances env st n t s f).2.filter isEmit) =
      [] := by
  cases hc : lookupCache st.signatureCache n.id with
  | some sig =>
    simp only [processNotificationWithInstances, hc]
    split <;>
      simp [List.filter_append, List.filter, isEmit, failureLog_filter_isEmit]
  | none =>
    simp only [processNotificationWithInstances, hc]
    split <;>
      simp [List.filter_append, List.filter, isEmit, failureLog_filter_isEmit]

theorem process_no_emit (env : Env) (st : WorkerState) (n : Notification)
    (t : Transfer) (s : Subscription) (f : Option Fulfillment) :
    ∀ e ∈ (processNotificationWithInstances env st n t s f).2,
      isEmit e = false := by
  intro e he
  by_contra h
  have hmem : e ∈ ((processNotificationWithInstances env st n t s f).2.filter
      isEmit) := by
    rw [List.mem_filter]
    exact ⟨he, by revert h; cases isEmit e <;> simp⟩
  rw [process_filter_isEmit] at hmem
  cases hmem

theorem processAll_filter_isEmit (env : Env) (st : WorkerState)
    (pairs : List (Option Notification × Subscription)) (t : Transfer)
    (f : Option Fulfillment) :
    ((processAll env st pairs t f).2.filter isEmit) = [] := by
  induction pairs generalizing st with
  | nil => rfl
  | cons p rest ih =>
    obtain ⟨optn, s⟩ := p
    cases optn with
    | none => exact ih _
    | some n =>
      simp only [processAll, List.filter_append]
      rw [process_filter_isEmit, ih]
      rfl

theorem processAll_no_emit (env : Env) (st : WorkerState)
    (pairs : List (Option Notification × Subscription)) (t : Transfer)
    (f : Option Fulfillment) :
    ∀ e ∈ (processAll env st pairs t f).2, isEmit e = false := by
  intro e he
  by_contra h
  have : e ∈ ((processAll env st pairs t f).2.filter isEmit) := by
    rw [List.mem_filter]
    exact ⟨he, by revert h; cases isEmit e <;> simp⟩
  rw [processAll_filter_isEmit] at this
  cases this

/-! ## Claims -/

/-- C1: calling `findOrCreate` for a pair (S, T) twice sequentially
yields exactly one stored notification record for the pair; the second
call finds the existing record and returns it without inserting, and
both calls return records with the same id. -/
theorem findOrCreate_twice_dedup
    (store : List Notification) (S T : String)
    (o2 : FindOrCreateOptions) (f1 f2 : String)
    (hpair : getMatchingNotification store S T = none)
    (hfresh : ∀ n ∈ store, n.id ≠ f1) :
    (findOrCreate store S T {} f1).2 = some ⟨f1, S, T⟩ ∧
    findOrCreate (findOrCreate store S T {} f1).1 S T o2 f2 =
      ((findOrCreate store S T {} f1).1, some ⟨f1, S, T⟩) ∧
    (pairRecords (findOrCreate store S T {} f1).1 S T).length = 1 := by
  have hfind1 : List.find? (fun n => n.id == f1) store = none := by
    rw [List.find?_eq_none]
    intro n hn
    simpa using hfresh n hn
  have hv : getMatchingNotification (store ++ [⟨f1, S, T⟩]) S T =
      some ⟨f1, S, T⟩ := by
    unfold getMatchingNotification at hpair ⊢
    rw [List.find?_append, hpair]
    simp
  have h1 : findOrCreate store S T {} f1 =
      (store ++ [⟨f1, S, T⟩], some ⟨f1, S, T⟩) := by
    unfold findOrCreate
    rw [hpair]
    simp only [insertNotification, getNotification]
    rw [List.find?_append, hfind1]
    simp
  refine ⟨by rw [h1], ?_, ?_⟩
  · rw [h1]
    unfold findOrCreate
    rw [hv]
  · rw [h1]
    unfold pairRecords
    rw [List.filter_append]
    have hnil : store.filter
        (fun n => n.subscription_id == S && n.transfer_id == T) = [] := by
      rw [List.filter_eq_nil_iff]
      intro n hn
      have := List.find?_eq_none.mp hpair n hn
      simpa using this
    rw [hnil]
    simp

/-- Witness for C1 at a concrete input: empty store, pair
("s1", "t1"), generated ids "id1" and "id2". -/
theorem findOrCreate_twice_dedup_witness :
    (findOrCreate [] "s1" "t1" {} "id1").2 = some ⟨"id1", "s1", "t1"⟩ ∧
    findOrCreate (findOrCreate [] "s1" "t1" {} "id1").1 "s1" "t1"
        ⟨some "other"⟩ "id2" =
      ((findOrCreate [] "s1" "t1" {} "id1").1, some ⟨"id1", "s1", "t1"⟩) ∧
    (pairRecords (findOrCreate [] "s1" "t1" {} "id1").1 "s1" "t1").length = 1 :=
  findOrCreate_twice_dedup [] "s1" "t1" ⟨some "other"⟩ "id1" "id2" rfl
    (by simp)

/-- C10: when a record already exists for the pair, `findOrCreate`
ignores the supplied options (explicit id and defaults) entirely: the
existing record is returned as-is and nothing is inserted. -/
theorem findOrCreate_existing_ignores_options
    (store : List Notification) (S T : String)
    (options : FindOrCreateOptions) (freshId : String) (n : Notification)
    (h : getMatchingNotification store S T = some n) :
    findOrCreate store S T options freshId = (store, some n) := by
  unfold findOrCreate
  rw [h]

/-- Witness for C10: a store holding a record for ("s1", "t1"); the
caller supplies the explicit id "explicit", which is ignored. -/
theorem findOrCreate_existing_ignores_options_witness :
    findOrCreate [⟨"n1", "s1", "t1"⟩] "s1" "t1" ⟨some "explicit"⟩ "fresh1" =
      ([⟨"n1", "s1", "t1"⟩], some ⟨"n1", "s1", "t1"⟩) :=
  findOrCreate_existing_ignores_options [⟨"n1", "s1", "t1"⟩] "s1" "t1"
    ⟨some "explicit"⟩ "fresh1" ⟨"n1", "s1", "t1"⟩ rfl

/-- C2: a delivery attempt whose transport call returns a status code
< 400 deletes the notification record from the store, removes the
signature-cache entry for that notification id, and does not call the
scheduler's retry interface. -/
theorem process_success_cleans_up
    (env : Env) (st : WorkerState) (n : Notification) (t : Transfer)
    (s : Subscription) (f : Option Fulfillment)
    (hsucc : isFailureOutcome
      (env.transport s.target (signedDeliveryBody env st n t s f)) = false) :
    (processNotificationWithInstances env st n t s f).1.store =
      deleteNotificationById st.store n.id ∧
    lookupCache
      (processNotificationWithInstances env st n t s f).1.signatureCache n.id =
      none ∧
    ((processNotificationWithInstances env st n t s f).2.filter isDelete) =
      [Effect.deleteNotification n.id] ∧
    ((processNotificationWithInstances env st n t s f).2.filter isRetry) =
      [] := by
  cases hc : lookupCache st.signatureCache n.id with
  | some sig =>
    simp only [signedDeliveryBody, hc] at hsucc
    simp only [processNotificationWithInstances, hc, hsucc, Bool.false_eq_true,
      if_false, List.nil_append, List.filter_append, List.singleton_append]
    refine ⟨by trivial, lookupCache_deleteCache _ _, ?_, ?_⟩
    · simp [List.filter, isDelete, failureLog_filter_isDelete]
    · simp [List.filter, isRetry, failureLog_filter_isRetry]
  | none =>
    simp only [signedDeliveryBody, hc] at hsucc
    simp only [processNotificationWithInstances, hc, hsucc, Bool.false_eq_true,
      if_false, List.nil_append, List.filter_append, List.singleton_append]
    refine ⟨by trivial, lookupCache_deleteCache _ _, ?_, ?_⟩
    · simp [List.filter, isDelete, failureLog_filter_isDelete]
    · simp [List.filter, isRetry, failureLog_filter_isRetry]

/-- Witness for C2: a transport answering 200 on a fresh state; the
record for notification "n1" is removed and no retry is requested. -/
theorem process_success_cleans_up_witness :
    (processNotificationWithInstances testEnv
        ⟨[⟨"n1", "sub1", "t1"⟩], []⟩ ⟨"n1", "sub1", "t1"⟩
        ⟨"t1", TransferState.prepared, [⟨"bob"⟩], [⟨"alice"⟩]⟩
        ⟨"sub1", "owner1", "http://host/cb"⟩ none).1.store =
      deleteNotificationById [⟨"n1", "sub1", "t1"⟩] "n1" ∧
    lookupCache (processNotificationWithInstances testEnv
        ⟨[⟨"n1", "sub1", "t1"⟩], []⟩ ⟨"n1", "sub1", "t1"⟩
        ⟨"t1", TransferState.prepared, [⟨"bob"⟩], [⟨"alice"⟩]⟩
        ⟨"sub1", "owner1", "http://host/cb"⟩ none).1.signatureCache "n1" =
      none ∧
    ((processNotificationWithInstances testEnv
        ⟨[⟨"n1", "sub1", "t1"⟩], []⟩ ⟨"n1", "sub1", "t1"⟩
        ⟨"t1", TransferState.prepared, [⟨"bob"⟩], [⟨"alice"⟩]⟩
        ⟨"sub1", "owner1", "http://host/cb"⟩ none).2.filter isDelete) =
      [Effect.deleteNotification "n1"] ∧
    ((processNotificationWithInstances testEnv
        ⟨[⟨"n1", "sub1", "t1"⟩], []⟩ ⟨"n1", "sub1", "t1"⟩
        ⟨"t1", TransferState.prepared, [⟨"bob"⟩], [⟨"alice"⟩]⟩
        ⟨"sub1", "owner1", "http://host/cb"⟩ none).2.filter isRetry) = [] :=
  process_success_cleans_up testEnv ⟨[⟨"n1", "sub1", "t1"⟩], []⟩
    ⟨"n1", "sub1", "t1"⟩ ⟨"t1", TransferState.prepared, [⟨"bob"⟩], [⟨"alice"⟩]⟩
    ⟨"sub1", "owner1", "http://host/cb"⟩ none (by decide)

/-- C3: a delivery attempt whose transport call returns a status code
≥ 400 or raises leaves the notification record intact, leaves the
signature-cache entry for the notification id present (and unchanged
when one existed), calls the scheduler's retry interface exactly once,
and deletes nothing.  The attempt itself is a total function: the
transport failure is consumed by the `catch` branch and never
re-raised. -/
theorem process_failure_preserves_and_retries
    (env : Env) (st : WorkerState) (n : Notification) (t : Transfer)
    (s : Subscription) (f : Option Fulfillment)
    (hfail : isFailureOutcome
      (env.transport s.target (signedDeliveryBody env st n t s f)) = true) :
    (processNotificationWithInstances env st n t s f).1.store = st.store ∧
    (lookupCache
      (processNotificationWithInstances env st n t s f).1.signatureCache
      n.id).isSome = true ∧
    (∀ sig, lookupCache st.signatureCache n.id = some sig →
      lookupCache
        (processNotificationWithInstances env st n t s f).1.signatureCache
        n.id = some sig) ∧
    ((processNotificationWithInstances env st n t s f).2.filter isRetry) =
      [Effect.retryNotification n.id] ∧
    ((processNotificationWithInstances env st n t s f).2.filter isDelete) =
      [] := by
  cases hc : lookupCache st.signatureCache n.id with
  | some sig =>
    simp only [signedDeliveryBody, hc] at hfail
    simp only [processNotificationWithInstances, hc, hfail, if_true,
      List.nil_append, List.filter_append, List.singleton_append]
    refine ⟨by trivial, rfl, ?_, ?_, ?_⟩
    · intro sig2 hsig2
      exact hsig2
    · simp [List.filter, isRetry, failureLog_filter_isRetry]
    · simp [List.filter, isDelete, failureLog_filter_isDelete]
  | none =>
    simp only [signedDeliveryBody, hc] at hfail
    simp only [processNotificationWithInstances, hc, hfail, if_true,
      List.nil_append, List.filter_append, List.singleton_append]
    refine ⟨by trivial, ?_, ?_, ?_, ?_⟩
    · rw [lookupCache_insertCache]; rfl
    · intro sig2 hsig2
      simp at hsig2
    · simp [List.filter, isRetry, failureLog_filter_isRetry]
    · simp [List.filter, isDelete, failureLog_filter_isDelete]

/-- Witness for C3: a transport answering 500; the record for
notification "n1" survives, its cache entry is present, and exactly
one retry handoff is requested. -/
theorem process_failure_preserves_and_retries_witness :
    (processNotificationWithInstances
        { testEnv with transport := fun _ _ => TransportOutcome.response 500 }
        ⟨[⟨"n1", "sub1", "t1"⟩], []⟩ ⟨"n1", "sub1", "t1"⟩
        ⟨"t1", TransferState.prepared, [⟨"bob"⟩], [⟨"alice"⟩]⟩
        ⟨"sub1", "owner1", "http://host/cb"⟩ none).1.store =
      [⟨"n1", "sub1", "t1"⟩] ∧
    (lookupCache (processNotificationWithInstances
        { testEnv with transport := fun _ _ => TransportOutcome.response 500 }
        ⟨[⟨"n1", "sub1", "t1"⟩], []⟩ ⟨"n1", "sub1", "t1"⟩
        ⟨"t1", TransferState.prepared, [⟨"bob"⟩], [⟨"alice"⟩]⟩
        ⟨"sub1", "owner1", "http://host/cb"⟩ none).1.signatureCache
      "n1").isSome = true ∧
    ((processNotificationWithInstances
        { testEnv with transport := fun _ _ => TransportOutcome.response 500 }
        ⟨[⟨"n1", "sub1", "t1"⟩], []⟩ ⟨"n1", "sub1", "t1"⟩
        ⟨"t1", TransferState.prepared, [⟨"bob"⟩], [⟨"alice"⟩]⟩
        ⟨"sub1", "owner1", "http://host/cb"⟩ none).2.filter isRetry) =
      [Effect.retryNotification "n1"] ∧
    ((processNotificationWithInstances
        { testEnv with transport := fun _ _ => TransportOutcome.response 500 }
        ⟨[⟨"n1", "sub1", "t1"⟩], []⟩ ⟨"n1", "sub1", "t1"⟩
        ⟨"t1", TransferState.prepared, [⟨"bob"⟩], [⟨"alice"⟩]⟩
        ⟨"sub1", "owner1", "http://host/cb"⟩ none).2.filter isDelete) = [] := by
  have h := process_failure_preserves_and_retries
    { testEnv with transport := fun _ _ => TransportOutcome.response 500 }
    ⟨[⟨"n1", "sub1", "t1"⟩], []⟩ ⟨"n1", "sub1", "t1"⟩
    ⟨"t1", TransferState.prepared, [⟨"bob"⟩], [⟨"alice"⟩]⟩
    ⟨"sub1", "owner1", "http://host/cb"⟩ none (by decide)
  exact ⟨h.1, h.2.1, h.2.2.2.1, h.2.2.2.2⟩

/-- C4: two successive delivery attempts for the same notification id
with no successful delivery between them (the first attempt's
transport outcome is a failure) send payloads carrying identical
`signature` values, and the signing primitive runs at most once across
the two attempts: the signature is in the cache after the first
attempt and the second attempt attaches the cached value to the
rebuilt body instead of re-signing. -/
theorem signature_reuse_across_attempts
    (env : Env) (st : WorkerState) (n : Notification) (t : Transfer)
    (s : Subscription) (f : Option Fulfillment)
    (hfail : isFailureOutcome
      (env.transport s.target (signedDeliveryBody env st n t s f)) = true) :
    ∃ sig : Signature,
      sentSignatures (processNotificationWithInstances env st n t s f).2 =
        [some sig] ∧
      lookupCache
        (processNotificationWithInstances env st n t s f).1.signatureCache
        n.id = some sig ∧
      sentSignatures (processNotificationWithInstances env
        (processNotificationWithInstances env st n t s f).1 n t s f).2 =
        [some sig] ∧
      (((processNotificationWithInstances env st n t s f).2 ++
        (processNotificationWithInstances env
          (processNotificationWithInstances env st n t s f).1 n t s
          f).2).filter isSignCall).length ≤ 1 := by
  cases hc : lookupCache st.signatureCache n.id with
  | some sig0 =>
    simp only [signedDeliveryBody, hc] at hfail
    refine ⟨sig0, ?_, ?_, ?_, ?_⟩
    · simp only [processNotificationWithInstances, hc, hfail, if_true]
      simp [sentSignatures, List.filter_append, List.filter,
        failureLog_filter_isSend, isSend]
    · simp only [processNotificationWithInstances, hc, hfail, if_true]
    · simp only [processNotificationWithInstances, hc, hfail, if_true]
      simp [sentSignatures, List.filter_append, List.filter,
        failureLog_filter_isSend, isSend]
    · simp only [processNotificationWithInstances, hc, hfail, if_true]
      simp [List.filter_append, List.filter, failureLog_filter_isSignCall,
        isSignCall]
  | none =>
    simp only [signedDeliveryBody, hc] at hfail
    refine ⟨env.sign (buildDeliveryBody env n t s f) "CC" env.privateKey,
      ?_, ?_, ?_, ?_⟩
    · simp only [processNotificationWithInstances, hc, hfail, if_true]
      simp [sentSignatures, List.filter_append, List.filter,
        failureLog_filter_isSend, isSend, isSignCall]
    · simp only [processNotificationWithInstances, hc, hfail, if_true]
      exact lookupCache_insertCache _ _ _
    · simp only [processNotificationWithInstances, hc, hfail, if_true,
        lookupCache_insertCache]
      simp [sentSignatures, List.filter_append, List.filter,
        failureLog_filter_isSend, isSend, isSignCall]
    · simp only [processNotificationWithInstances, hc, hfail, if_true,
        lookupCache_insertCache]
      simp [List.filter_append, List.filter, failureLog_filter_isSignCall,
        isSignCall, isSend]

/-- Witness for C4: a transport answering 500 and an initially empty
cache; the first attempt signs once, the retry reuses the cached
signature. -/
theorem signature_reuse_across_attempts_witness :
    ∃ sig : Signature,
      sentSignatures (processNotificationWithInstances
        { testEnv with transport := fun _ _ => TransportOutcome.response 500 }
        ⟨[⟨"n1", "sub1", "t1"⟩], []⟩ ⟨"n1", "sub1", "t1"⟩
        ⟨"t1", TransferState.prepared, [⟨"bob"⟩], [⟨"alice"⟩]⟩
        ⟨"sub1", "owner1", "http://host/cb"⟩ none).2 = [some sig] ∧
      lookupCache (processNotificationWithInstances
        { testEnv with transport := fun _ _ => TransportOutcome.response 500 }
        ⟨[⟨"n1", "sub1", "t1"⟩], []⟩ ⟨"n1", "sub1", "t1"⟩
        ⟨"t1", TransferState.prepared, [⟨"bob"⟩], [⟨"alice"⟩]⟩
        ⟨"sub1", "owner1", "http://host/cb"⟩ none).1.signatureCache "n1" =
        some sig ∧
      sentSignatures (processNotificationWithInstances
        { testEnv with transport := fun _ _ => TransportOutcome.response 500 }
        (processNotificationWithInstances
          { testEnv with transport := fun _ _ => TransportOutcome.response 500 }
          ⟨[⟨"n1", "sub1", "t1"⟩], []⟩ ⟨"n1", "sub1", "t1"⟩
          ⟨"t1", TransferState.prepared, [⟨"bob"⟩], [⟨"alice"⟩]⟩
          ⟨"sub1", "owner1", "http://host/cb"⟩ none).1
        ⟨"n1", "sub1", "t1"⟩
        ⟨"t1", TransferState.prepared, [⟨"bob"⟩], [⟨"alice"⟩]⟩
        ⟨"sub1", "owner1", "http://host/cb"⟩ none).2 = [some sig] ∧
      (((processNotificationWithInstances
        { testEnv with transport := fun _ _ => TransportOutcome.response 500 }
        ⟨[⟨"n1", "sub1", "t1"⟩], []⟩ ⟨"n1", "sub1", "t1"⟩
        ⟨"t1", TransferState.prepared, [⟨"bob"⟩], [⟨"alice"⟩]⟩
        ⟨"sub1", "owner1", "http://host/cb"⟩ none).2 ++
        (processNotificationWithInstances
          { testEnv with transport := fun _ _ => TransportOutcome.response 500 }
          (processNotificationWithInstances
            { testEnv with transport := fun _ _ => TransportOutcome.response 500 }
            ⟨[⟨"n1", "sub1", "t1"⟩], []⟩ ⟨"n1", "sub1", "t1"⟩
            ⟨"t1", TransferState.prepared, [⟨"bob"⟩], [⟨"alice"⟩]⟩
            ⟨"sub1", "owner1", "http://host/cb"⟩ none).1
          ⟨"n1", "sub1", "t1"⟩
          ⟨"t1", TransferState.prepared, [⟨"bob"⟩], [⟨"alice"⟩]⟩
          ⟨"sub1", "owner1", "http://host/cb"⟩ none).2).filter
        isSignCall).length ≤ 1 :=
  signature_reuse_across_attempts
    { testEnv with transport := fun _ _ => TransportOutcome.response 500 }
    ⟨[⟨"n1", "sub1", "t1"⟩], []⟩ ⟨"n1", "sub1", "t1"⟩
    ⟨"t1", TransferState.prepared, [⟨"bob"⟩], [⟨"alice"⟩]⟩
    ⟨"sub1", "owner1", "http://host/cb"⟩ none (by decide)

/-- C5: whenever `queueNotifications` reaches the fan-out phase with
the scheduler enabled, the durable processing pass is scheduled at the
end of the cycle for every possible transport behavior — delivery
failures inside the immediate-send phase are absorbed by the attempt's
`catch` branch (they surface only as retry handoffs and log entries in
the trace) and cannot prevent `scheduleProcessing`; the whole function
is total, so nothing propagates to the caller. -/
theorem queue_always_schedules (env : Env) (st : WorkerState) (t : Transfer)
    (subs : List Subscription)
    (hsubs : env.getAffectedSubscriptions (affectedAccountUris env t) =
      some subs)
    (hen : env.schedulerEnabled = true) :
    ∃ pre, (queueNotifications env st t).2 =
      pre ++ [Effect.scheduleProcessing] := by
  simp only [queueNotifications, hsubs, hen, if_true]
  exact ⟨_, by rw [List.append_assoc]⟩

/-- Witness for C5: a transport that always raises; the trace still
ends with the durable scheduling pass. -/
theorem queue_always_schedules_witness :
    ∃ pre, (queueNotifications
      { testEnv with transport := fun _ _ => TransportOutcome.exception "refused" }
      ⟨[], []⟩ ⟨"t1", TransferState.prepared, [⟨"bob"⟩], [⟨"alice"⟩]⟩).2 =
      pre ++ [Effect.scheduleProcessing] :=
  queue_always_schedules
    { testEnv with transport := fun _ _ => TransportOutcome.exception "refused" }
    ⟨[], []⟩ ⟨"t1", TransferState.prepared, [⟨"bob"⟩], [⟨"alice"⟩]⟩
    [⟨"sub1", "owner1", "http://host/cb"⟩] rfl rfl

/-- C6: fulfillment-attachment policy.  The delivery payload carries
`related_resources.execution_condition_fulfillment` exactly when the
state is EXECUTED and a fulfillment is present,
`cancellation_condition_fulfillment` exactly when the state is
REJECTED and a fulfillment is present, and no `related_resources` in
every other case; the generic body built by `queueNotifications` (with
its finalized-guarded fetch) obeys the same policy. -/
theorem related_resources_policy (env : Env) (n : Notification)
    (t : Transfer) (s : Subscription) (f : Option Fulfillment) :
    (buildDeliveryBody env n t s f).related_resources =
      (match f, t.state with
       | some fl, TransferState.executed =>
         some (RelatedResources.execution_condition_fulfillment
           (convertToExternalFulfillment fl))
       | some fl, TransferState.rejected =>
         some (RelatedResources.cancellation_condition_fulfillment
           (convertToExternalFulfillment fl))
       | _, _ => none) ∧
    (genericNotificationBody env t).related_resources =
      (match fetchedFulfillment env t, t.state with
       | some fl, TransferState.executed =>
         some (RelatedResources.execution_condition_fulfillment
           (convertToExternalFulfillment fl))
       | some fl, TransferState.rejected =>
         some (RelatedResources.cancellation_condition_fulfillment
           (convertToExternalFulfillment fl))
       | _, _ => none) := by
  obtain ⟨tid, tstate, td, tc⟩ := t
  constructor
  · cases f <;> cases tstate <;>
      simp [buildDeliveryBody, attachFulfillment]
  · cases hg : env.getFulfillment tid <;> cases tstate <;>
      simp [genericNotificationBody, fetchedFulfillment, attachFulfillment,
        isTransferFinalized, hg]

/-- C7 counterexample: with the account "alice" appearing in both
debits and credits, the local event `transfer-alice` is emitted twice
in one dispatch cycle, refuting the claim's "no event emitted more
than once even if an account appears in both debits and credits". -/
theorem fanout_duplicate_emit_counterexample :
    (((queueNotifications { testEnv with schedulerEnabled := false }
        ⟨[], []⟩
        ⟨"t1", TransferState.prepared, [⟨"alice"⟩], [⟨"alice"⟩]⟩).2).filter
      fun e => match e with
        | Effect.emit ev _ => ev == "transfer-alice"
        | _ => false).length = 2 := by
  rfl

/-- C7 amended: for a transfer with debit account B and credit account
A, the emitted local events are exactly the list
[transfer-B, transfer-A, transfer-*], each carrying the identical
generic body — so as a set they are exactly
\x7btransfer-A, transfer-B, transfer-*\x7d, but each occurrence of an
account in debits ++ credits produces one emission (an account listed
in both debits and credits is emitted twice, as the counterexample
shows). -/
theorem fanout_events_exact (env : Env) (st : WorkerState) (tid : String)
    (state : TransferState) (A B : String) (subs : List Subscription)
    (hsubs : env.getAffectedSubscriptions
      (affectedAccountUris env ⟨tid, state, [⟨B⟩], [⟨A⟩]⟩) = some subs) :
    ((queueNotifications env st ⟨tid, state, [⟨B⟩], [⟨A⟩]⟩).2.filter isEmit) =
      [Effect.emit ("transfer-" ++ B)
          (genericNotificationBody env ⟨tid, state, [⟨B⟩], [⟨A⟩]⟩),
       Effect.emit ("transfer-" ++ A)
          (genericNotificationBody env ⟨tid, state, [⟨B⟩], [⟨A⟩]⟩),
       Effect.emit ("transfer-" ++ "*")
          (genericNotificationBody env ⟨tid, state, [⟨B⟩], [⟨A⟩]⟩)] := by
  simp only [queueNotifications, hsubs]
  cases hen : env.schedulerEnabled with
  | false => rfl
  | true =>
    simp only [if_true, List.filter_append, processAll_filter_isEmit]
    simp [emitEffects, affectedAccounts, List.filter, isEmit]

/-- Witness for C7's amended theorem at concrete accounts "alice" and
"bob". -/
theorem fanout_events_exact_witness :
    ((queueNotifications testEnv ⟨[], []⟩
        ⟨"t1", TransferState.prepared, [⟨"bob"⟩], [⟨"alice"⟩]⟩).2.filter
      isEmit) =
      [Effect.emit ("transfer-" ++ "bob")
          (genericNotificationBody testEnv
            ⟨"t1", TransferState.prepared, [⟨"bob"⟩], [⟨"alice"⟩]⟩),
       Effect.emit ("transfer-" ++ "alice")
          (genericNotificationBody testEnv
            ⟨"t1", TransferState.prepared, [⟨"bob"⟩], [⟨"alice"⟩]⟩),
       Effect.emit ("transfer-" ++ "*")
          (genericNotificationBody testEnv
            ⟨"t1", TransferState.prepared, [⟨"bob"⟩], [⟨"alice"⟩]⟩)] :=
  fanout_events_exact testEnv ⟨[], []⟩ "t1" TransferState.prepared
    "alice" "bob" [⟨"sub1", "owner1", "http://host/cb"⟩] rfl

/-- C8: within one dispatch cycle the local events for all affected
accounts are emitted as a contiguous block at the head of the trace,
before any outbound send (the tail holds no emissions); when the
scheduler is not enabled the tail is empty, so no immediate send is
attempted while the local events are still emitted. -/
theorem emission_precedes_send (env : Env) (st : WorkerState) (t : Transfer)
    (subs : List Subscription)
    (hsubs : env.getAffectedSubscriptions (affectedAccountUris env t) =
      some subs) :
    ∃ tail, (queueNotifications env st t).2 =
        emitEffects (affectedAccounts t) (genericNotificationBody env t) ++
          tail ∧
      (∀ e ∈ tail, isEmit e = false) ∧
      (env.schedulerEnabled = false → tail = []) := by
  simp only [queueNotifications, hsubs]
  cases hen : env.schedulerEnabled with
  | false =>
    refine ⟨[], by simp, by simp, fun _ => rfl⟩
  | true =>
    simp only [if_true]
    refine ⟨_, by rw [List.append_assoc], ?_, ?_⟩
    · intro e he
      rcases List.mem_append.mp he with he | he
      · exact processAll_no_emit _ _ _ _ _ e he
      · rw [List.mem_singleton] at he
        subst he
        rfl
    · intro h
      simp at h

/-- Witness for C8: the scheduler-enabled test environment; the trace
decomposes into the emission block followed by an emission-free
tail. -/
theorem emission_precedes_send_witness :
    ∃ tail, (queueNotifications testEnv ⟨[], []⟩
        ⟨"t1", TransferState.prepared, [⟨"bob"⟩], [⟨"alice"⟩]⟩).2 =
        emitEffects
          (affectedAccounts ⟨"t1", TransferState.prepared, [⟨"bob"⟩], [⟨"alice"⟩]⟩)
          (genericNotificationBody testEnv
            ⟨"t1", TransferState.prepared, [⟨"bob"⟩], [⟨"alice"⟩]⟩) ++ tail ∧
      (∀ e ∈ tail, isEmit e = false) ∧
      (testEnv.schedulerEnabled = false → tail = []) :=
  emission_precedes_send testEnv ⟨[], []⟩
    ⟨"t1", TransferState.prepared, [⟨"bob"⟩], [⟨"alice"⟩]⟩
    [⟨"sub1", "owner1", "http://host/cb"⟩] rfl

/-- C9: when the affected-subscription lookup reports that no
subscriptions exist, `queueNotifications` completes with no further
effect: the state (store and cache) is unchanged and the trace is
empty — no record creation, no local event, no delivery attempt, no
scheduling pass. -/
theorem no_subscriptions_no_effect (env : Env) (st : WorkerState)
    (t : Transfer)
    (hnone : env.getAffectedSubscriptions (affectedAccountUris env t) =
      none) :
    queueNotifications env st t = (st, []) := by
  simp only [queueNotifications, hnone]

/-- Witness for C9: a lookup returning no subscriptions leaves the
initial state untouched and the trace empty. -/
theorem no_subscriptions_no_effect_witness :
    queueNotifications
      { testEnv with getAffectedSubscriptions := fun _ => none }
      ⟨[], []⟩ ⟨"t1", TransferState.prepared, [⟨"bob"⟩], [⟨"alice"⟩]⟩ =
      (⟨[], []⟩, []) :=
  no_subscriptions_no_effect
    { testEnv with getAffectedSubscriptions := fun _ => none }
    ⟨[], []⟩ ⟨"t1", TransferState.prepared, [⟨"bob"⟩], [⟨"alice"⟩]⟩ rfl

end NotificationWorker
